import Mathlib

/-!
Shallow embedding of the tomviz ModuleRuler module
(src/tomviz/ModuleRuler.cxx) and proofs about its behaviour.

Modelling conventions:
- C++ doubles are modelled as rationals; none of the embedded code paths
  depend on floating-point rounding (the only arithmetic is the structured
  coordinate computation of vtkImageData::FindPoint, modelled exactly).
- VTK proxies are modelled by records carrying an identity (a natural
  number standing for the pointer) together with the proxy properties that
  ModuleRuler touches.  A raw vtkSMProxy pointer is an `Option ℕ`
  (`none` = nullptr).
- The host pipeline controller is modelled as the list of registered proxy
  identities; RegisterPipelineProxy appends, UnRegisterProxy removes
  (UnRegisterProxy on a null pointer is a no-op).
- Fallible operations (null dereference, out-of-range data array reads)
  return `Option`.
- pugi XML nodes are modelled structurally: an absent child node is `none`,
  matching the falsiness of an empty pugi handle.
-/

namespace ModuleRulerSpec

/-- A 3D point (double[3] in the source). -/
structure Point3 where
  x : ℚ
  y : ℚ
  z : ℚ
  deriving DecidableEq, Repr

/-- The ruler source proxy: identity plus the Point1/Point2 properties that
ModuleRuler reads and writes. -/
structure RulerProxy where
  id : ℕ
  point1 : Point3
  point2 : Point3
  deriving DecidableEq, Repr

/-- The representation proxy: identity plus the integer Visibility property. -/
structure RepProxy where
  id : ℕ
  visibility : ℤ
  deriving DecidableEq, Repr

/-- The pqLinePropertyWidget: the only state ModuleRuler manipulates on it is
its widget visibility. -/
structure LineWidget where
  widgetVisible : Bool
  deriving DecidableEq, Repr

/-- The member state of a ModuleRuler instance (field names follow the
source).  While the widget exists its widgetVisibilityUpdated signal is
connected to updateShowLine, as established in addToPanel. -/
structure ModuleRuler where
  m_rulerSource : Option RulerProxy
  m_representation : Option RepProxy
  m_showLine : Bool
  m_widget : Option LineWidget
  deriving DecidableEq, Repr

/-- The data source collaborator, reduced to the six values that
vtkDataSet::GetBounds returns: [xmin, xmax, ymin, ymax, zmin, zmax]. -/
structure DataSource where
  bounds0 : ℚ
  bounds1 : ℚ
  bounds2 : ℚ
  bounds3 : ℚ
  bounds4 : ℚ
  bounds5 : ℚ
  deriving DecidableEq, Repr

/-- vtkSMParaViewPipelineControllerWithRendering::RegisterPipelineProxy:
adds the proxy to the set of registered pipeline proxies. -/
def registerPipelineProxy (ctrl : List ℕ) (i : ℕ) : List ℕ :=
  ctrl ++ [i]

/-- vtkSMParaViewPipelineControllerWithRendering::UnRegisterProxy: removes a
registered proxy; a null argument is a no-op. -/
def unRegisterProxy (ctrl : List ℕ) (p : Option ℕ) : List ℕ :=
  match p with
  | none => ctrl
  | some i => ctrl.filter (fun j => j != i)

/-- m_rulerSource.GetPointer(), as a raw pointer value. -/
def ModuleRuler.rulerPtr (st : ModuleRuler) : Option ℕ :=
  st.m_rulerSource.map RulerProxy.id

/-- m_representation.GetPointer(), as a raw pointer value. -/
def ModuleRuler.representationPtr (st : ModuleRuler) : Option ℕ :=
  st.m_representation.map RepProxy.id

/-- ModuleRuler::initialize.  `baseOk` is the result of the base class
Module::initialize call; `rulerId` is the identity of the proxy returned by
pxm->NewProxy("sources", "Ruler") and `repId` the identity of the
representation returned by controller->Show.  Returns the boolean result
together with the new module state and controller state. -/
def ModuleRuler.initializeModule (st : ModuleRuler) (ctrl : List ℕ) (baseOk : Bool)
    (data : DataSource) (rulerId repId : ℕ) : Bool × ModuleRuler × List ℕ :=
  if baseOk then
    let boundsMin : Point3 := ⟨data.bounds0, data.bounds2, data.bounds4⟩
    let boundsMax : Point3 := ⟨data.bounds1, data.bounds3, data.bounds5⟩
    let ruler : RulerProxy := { id := rulerId, point1 := boundsMin, point2 := boundsMax }
    let ctrl := registerPipelineProxy ctrl rulerId
    let rep : RepProxy := { id := repId, visibility := 1 }
    let ctrl := registerPipelineProxy ctrl repId
    (true, { st with m_rulerSource := some ruler, m_representation := some rep }, ctrl)
  else
    (false, st, ctrl)

/-- ModuleRuler::finalize: unregisters both owned proxies from the controller
and clears the references; always returns true. -/
def ModuleRuler.finalize (st : ModuleRuler) (ctrl : List ℕ) :
    Bool × ModuleRuler × List ℕ :=
  let ctrl := unRegisterProxy ctrl st.representationPtr
  let ctrl := unRegisterProxy ctrl st.rulerPtr
  (true, { st with m_representation := none, m_rulerSource := none }, ctrl)

/-- ModuleRuler::updateShowLine (slot): stores the widget visibility into the
cached show-line preference. -/
def ModuleRuler.updateShowLine (st : ModuleRuler) (b : Bool) : ModuleRuler :=
  { st with m_showLine := b }

/-- pqLinePropertyWidget::setWidgetVisible, as observed by ModuleRuler while
the widgetVisibilityUpdated signal is connected to updateShowLine: updates
the widget visibility and the emitted signal runs updateShowLine. -/
def ModuleRuler.setWidgetVisible (st : ModuleRuler) (v : Bool) : ModuleRuler :=
  match st.m_widget with
  | none => st
  | some w =>
    ModuleRuler.updateShowLine { st with m_widget := some { w with widgetVisible := v } } v

/-- ModuleRuler::setVisibility: writes the representation Visibility property
(dereferencing a null representation is a failure, hence `Option`), then, if
the widget exists, caches m_showLine, calls setWidgetVisible(val && m_showLine)
and restores m_showLine to the cached value. -/
def ModuleRuler.setVisibility (st : ModuleRuler) (val : Bool) :
    Option (Bool × ModuleRuler) :=
  match st.m_representation with
  | none => none
  | some rep =>
    let st := { st with
      m_representation := some { rep with visibility := if val then 1 else 0 } }
    match st.m_widget with
    | none => some (true, st)
    | some _ =>
      let oldValue := st.m_showLine
      let st := st.setWidgetVisible (val && st.m_showLine)
      some (true, { st with m_showLine := oldValue })

/-- ModuleRuler::visibility: the representation Visibility property read as
int, compared against 0; false when the representation is null. -/
def ModuleRuler.visibility (st : ModuleRuler) : Bool :=
  match st.m_representation with
  | some rep => rep.visibility != 0
  | none => false

/-- ModuleRuler::isProxyPartOfModule: pointer comparison against the two
owned proxies. -/
def ModuleRuler.isProxyPartOfModule (st : ModuleRuler) (p : Option ℕ) : Bool :=
  p == st.rulerPtr || p == st.representationPtr

/-- ModuleRuler::getStringForProxy: the owned ruler source maps to "Ruler",
the owned representation to "Representation"; any other proxy warns and
yields the empty string. -/
def ModuleRuler.getStringForProxy (st : ModuleRuler) (p : Option ℕ) : String :=
  if p = st.rulerPtr then "Ruler"
  else if p = st.representationPtr then "Representation"
  else ""

/-- ModuleRuler::getProxyForString: "Ruler" maps to m_rulerSource,
"Representation" to m_representation, anything else to nullptr. -/
def ModuleRuler.getProxyForString (st : ModuleRuler) (s : String) : Option ℕ :=
  if s = "Ruler" then st.rulerPtr
  else if s = "Representation" then st.representationPtr
  else none

/-- The "Ruler" child node of the serialized document; the helper stores the
Point1 and Point2 proxy properties in it. -/
structure RulerNode where
  point1Prop : Option Point3
  point2Prop : Option Point3
  deriving DecidableEq, Repr

/-- The "ShowLine" child node with its "value" attribute (absent attribute is
`none`). -/
structure ShowLineNode where
  value : Option Bool
  deriving DecidableEq, Repr

/-- The "Representation" child node: the Visibility property stored by the
helper, plus the optional ShowLine child. -/
structure RepresentationNode where
  visibilityProp : Option ℤ
  showLine : Option ShowLineNode
  deriving DecidableEq, Repr

/-- The document node handed to serialize/deserialize, with its optional
"Ruler" and "Representation" children (an absent pugi child is falsy,
modelled as `none`). -/
structure XmlNode where
  rulerChild : Option RulerNode
  representationChild : Option RepresentationNode
  deriving DecidableEq, Repr

/-- Modelled from the spec: tomviz::serialize (the "generic proxy-property
serialization helper" of section 6; its definition lives in
tomviz/Utilities.cxx, which is not under src/), applied to the ruler source
with the property list [Point1, Point2].  It writes those proxy properties
into the node and "reports failure if either underlying property
serialization fails", modelled as the proxy being absent. -/
def serializeRulerProperties (proxy : Option RulerProxy) (node : RulerNode) :
    Option RulerNode :=
  proxy.map fun r =>
    { node with point1Prop := some r.point1, point2Prop := some r.point2 }

/-- Modelled from the spec: tomviz::serialize applied to the representation
with the property list [Visibility]; failure modelled as for
`serializeRulerProperties`. -/
def serializeRepresentationProperties (proxy : Option RepProxy)
    (node : RepresentationNode) : Option RepresentationNode :=
  proxy.map fun p => { node with visibilityProp := some p.visibility }

/-- Modelled from the spec: tomviz::deserialize (tomviz/Utilities.cxx, not
under src/), the "inverse of serialize" for the ruler source: restores the
Point1/Point2 properties from the node into the proxy, failing when the
proxy is null or the node does not hold the serialized properties. -/
def deserializeRulerProperties (proxy : Option RulerProxy)
    (node : Option RulerNode) : Option RulerProxy :=
  match proxy, node with
  | some r, some n =>
    match n.point1Prop, n.point2Prop with
    | some p1, some p2 => some { r with point1 := p1, point2 := p2 }
    | _, _ => none
  | _, _ => none

/-- Modelled from the spec: tomviz::deserialize for the representation:
restores the Visibility property, failing when the proxy is null or the node
does not hold the serialized property. -/
def deserializeRepresentationProperties (proxy : Option RepProxy)
    (node : Option RepresentationNode) : Option RepProxy :=
  match proxy, node with
  | some p, some n =>
    match n.visibilityProp with
    | some v => some { p with visibility := v }
    | none => none
  | _, _ => none

/-- ModuleRuler::serialize: appends the "Ruler" and "Representation"
children, serializes Point1/Point2 into the former (returning failure if
that fails), appends the ShowLine child with the cached flag, serializes
Visibility into the latter (returning failure if that fails).  `none` stands
for a false return. -/
def ModuleRuler.serialize (st : ModuleRuler) : Option XmlNode :=
  let rulerNode : RulerNode := ⟨none, none⟩
  let representationNode : RepresentationNode := ⟨none, none⟩
  match serializeRulerProperties st.m_rulerSource rulerNode with
  | none => none
  | some rulerNode =>
    let representationNode :=
      { representationNode with showLine := some ⟨some st.m_showLine⟩ }
    match serializeRepresentationProperties st.m_representation representationNode with
    | none => none
    | some representationNode => some ⟨some rulerNode, some representationNode⟩

/-- ModuleRuler::deserialize: success is the short-circuit conjunction of the
ruler restore and the representation restore (the latter is not attempted
when the former fails); afterwards, independently of success, the ShowLine
value is read from Representation/ShowLine/@value when that whole chain is
present and stored into m_showLine. -/
def ModuleRuler.deserialize (st : ModuleRuler) (ns : XmlNode) :
    Bool × ModuleRuler :=
  let representationNode := ns.representationChild
  let (success, st1) :=
    match deserializeRulerProperties st.m_rulerSource ns.rulerChild with
    | none => (false, st)
    | some r =>
      match deserializeRepresentationProperties st.m_representation representationNode with
      | none => (false, { st with m_rulerSource := some r })
      | some p => (true, { st with m_rulerSource := some r, m_representation := some p })
  let st2 :=
    match representationNode with
    | none => st1
    | some rn =>
      match rn.showLine with
      | none => st1
      | some sl =>
        match sl.value with
        | none => st1
        | some v => { st1 with m_showLine := v }
  (success, st2)

/-- The ShowLine value carried by a document node, when the Representation
child, its ShowLine child and the value attribute are all present. -/
def XmlNode.showLineValue (ns : XmlNode) : Option Bool :=
  ns.representationChild.bind fun rn => rn.showLine.bind fun sl => sl.value

/-- vtkImageData, reduced to what FindPoint and GetScalars use: origin,
spacing, extent, and the flat point-scalar array. -/
structure ImageData where
  originX : ℚ
  originY : ℚ
  originZ : ℚ
  spacingX : ℚ
  spacingY : ℚ
  spacingZ : ℚ
  extX0 : ℤ
  extX1 : ℤ
  extY0 : ℤ
  extY1 : ℤ
  extZ0 : ℤ
  extZ1 : ℤ
  scalars : List ℚ
  deriving DecidableEq, Repr

/-- dims[0] = extent[1] - extent[0] + 1. -/
def ImageData.dimX (img : ImageData) : ℤ := img.extX1 - img.extX0 + 1

/-- dims[1] = extent[3] - extent[2] + 1. -/
def ImageData.dimY (img : ImageData) : ℤ := img.extY1 - img.extY0 + 1

/-- dims[2] = extent[5] - extent[4] + 1. -/
def ImageData.dimZ (img : ImageData) : ℤ := img.extZ1 - img.extZ0 + 1

/-- The structured coordinate of FindPoint along one axis:
floor((x - origin) / spacing + 0.5). -/
def structuredCoord (origin spacing x : ℚ) : ℤ :=
  ⌊(x - origin) / spacing + 1 / 2⌋

/-- vtkImageData::FindPoint: computes the structured coordinates of the query
point by rounding, returns -1 (here `none`) when any coordinate falls outside
the extent, and otherwise the flat point id
loc[0] + loc[1]*dims[0] + loc[2]*dims[0]*dims[1] (loc relative to the extent
origin). -/
def ImageData.findPoint (img : ImageData) (p : Point3) : Option ℤ :=
  let lx := structuredCoord img.originX img.spacingX p.x
  let ly := structuredCoord img.originY img.spacingY p.y
  let lz := structuredCoord img.originZ img.spacingZ p.z
  if img.extX0 ≤ lx ∧ lx ≤ img.extX1 ∧ img.extY0 ≤ ly ∧ ly ≤ img.extY1 ∧
      img.extZ0 ≤ lz ∧ lz ≤ img.extZ1 then
    some ((lx - img.extX0) + (ly - img.extY0) * img.dimX +
      (lz - img.extZ0) * img.dimX * img.dimY)
  else
    none

/-- vtkDataArray::GetTuple1 on the scalar array: an in-range read returns the
stored value; an out-of-range read (in particular at the -1 returned by a
failed FindPoint) is an invalid access, modelled as `none`. -/
def getTuple1 (arr : List ℚ) (i : ℤ) : Option ℚ :=
  if h : 0 ≤ i ∧ i.toNat < arr.length then some (arr.get ⟨i.toNat, h.2⟩)
  else none

/-- ModuleRuler::endPointsUpdated: reads Point1/Point2 from the ruler source,
locates each with FindPoint on the image, reads the scalar at each id, and
emits newEndpointData(v1, v2).  The emitted pair, `none` when a step is an
invalid access. -/
def ModuleRuler.endPointsUpdated (st : ModuleRuler) (img : ImageData) :
    Option (ℚ × ℚ) :=
  match st.m_rulerSource with
  | none => none
  | some r =>
    match img.findPoint r.point1, img.findPoint r.point2 with
    | some p1, some p2 =>
      match getTuple1 img.scalars p1, getTuple1 img.scalars p2 with
      | some v1, some v2 => some (v1, v2)
      | _, _ => none
    | _, _ => none

/-- The grid sample at structured coordinates (i, j, k):
origin + coordinate * spacing along each axis. -/
def ImageData.gridPoint (img : ImageData) (i j k : ℤ) : Point3 :=
  ⟨img.originX + i * img.spacingX, img.originY + j * img.spacingY,
    img.originZ + k * img.spacingZ⟩

/-- Structured coordinates lying inside the image extent. -/
def ImageData.inExtent (img : ImageData) (i j k : ℤ) : Prop :=
  img.extX0 ≤ i ∧ i ≤ img.extX1 ∧ img.extY0 ≤ j ∧ j ≤ img.extY1 ∧
    img.extZ0 ≤ k ∧ k ≤ img.extZ1

/-- Squared Euclidean distance between two points. -/
def dist2 (p q : Point3) : ℚ :=
  (p.x - q.x) ^ 2 + (p.y - q.y) ^ 2 + (p.z - q.z) ^ 2

/-- The flat point id of the sample at structured coordinates (i, j, k). -/
def ImageData.flatIndex (img : ImageData) (i j k : ℤ) : ℤ :=
  (i - img.extX0) + (j - img.extY0) * img.dimX +
    (k - img.extZ0) * img.dimX * img.dimY

/-- `v` is the scalar value stored at a grid sample of `img` nearest (in
Euclidean distance, among all samples in the extent) to the point `p`. -/
def ImageData.isNearestSampleValue (img : ImageData) (p : Point3) (v : ℚ) : Prop :=
  ∃ i j k, img.inExtent i j k ∧
    (∀ a b c, img.inExtent a b c →
      dist2 p (img.gridPoint i j k) ≤ dist2 p (img.gridPoint a b c)) ∧
    getTuple1 img.scalars (img.flatIndex i j k) = some v

/-- A concrete 2-sample image (extent 0..1 along x) used to evaluate the
theorems on closed inputs. -/
def sampleImage : ImageData :=
  ⟨0, 0, 0, 1, 1, 1, 0, 1, 0, 0, 0, 0, [10, 20]⟩

/-- A concrete ruler proxy used to evaluate the theorems on closed inputs. -/
def sampleRuler : RulerProxy :=
  ⟨7, ⟨1 / 4, 0, 0⟩, ⟨1, 0, 0⟩⟩

/-- A concrete module state used to evaluate the theorems on closed inputs. -/
def sampleModule : ModuleRuler :=
  ⟨some sampleRuler, some ⟨8, 1⟩, true, some ⟨true⟩⟩

/-- A second concrete module state (the fresh module of the round-trip
claim). -/
def sampleModule2 : ModuleRuler :=
  ⟨some ⟨11, ⟨5, 5, 5⟩, ⟨6, 6, 6⟩⟩, some ⟨12, 0⟩, false, none⟩

/-- A concrete data source used to evaluate the theorems on closed inputs. -/
def sampleData : DataSource :=
  ⟨0, 10, 1, 11, 2, 12⟩

/-- The document produced by serializing `sampleModule`. -/
def sampleSerialized : XmlNode :=
  sampleModule.serialize.getD ⟨none, none⟩

/-- A document whose Ruler child is missing (so the ruler restore fails) but
whose Representation child carries both a Visibility property and a ShowLine
value. -/
def sampleBadDoc : XmlNode :=
  ⟨none, some ⟨some 5, some ⟨some true⟩⟩⟩

/-- C1: after a successful initialize(data, view), the ruler Point1 is the
bounding-box minimum corner (bounds[0], bounds[2], bounds[4]) and Point2 the
maximum corner (bounds[1], bounds[3], bounds[5]). -/
theorem initialize_sets_endpoints_to_bounds (st : ModuleRuler) (ctrl : List ℕ)
    (baseOk : Bool) (data : DataSource) (rulerId repId : ℕ)
    (h : (st.initializeModule ctrl baseOk data rulerId repId).1 = true) :
    ∃ r : RulerProxy,
      (st.initializeModule ctrl baseOk data rulerId repId).2.1.m_rulerSource = some r ∧
      r.point1 = ⟨data.bounds0, data.bounds2, data.bounds4⟩ ∧
      r.point2 = ⟨data.bounds1, data.bounds3, data.bounds5⟩ := by
  cases baseOk with
  | false => simp [ModuleRuler.initializeModule] at h
  | true => exact ⟨_, rfl, rfl, rfl⟩

/-- Witness for C1 on concrete inputs. -/
theorem initialize_sets_endpoints_to_bounds_witness :
    ((sampleModule.initializeModule [] true sampleData 1 2).1 = true) ∧
    (∃ r : RulerProxy,
      (sampleModule.initializeModule [] true sampleData 1 2).2.1.m_rulerSource = some r ∧
      r.point1 = ⟨sampleData.bounds0, sampleData.bounds2, sampleData.bounds4⟩ ∧
      r.point2 = ⟨sampleData.bounds1, sampleData.bounds3, sampleData.bounds5⟩) :=
  ⟨by decide, initialize_sets_endpoints_to_bounds sampleModule [] true sampleData 1 2
    (by decide)⟩

/-- C3: with a live representation, setVisibility(v) succeeds, leaves the
cached ShowLine preference unchanged, and setVisibility(true) makes a
subsequent visibility() call return true. -/
theorem setVisibility_preserves_showLine (st : ModuleRuler) (rep : RepProxy)
    (v : Bool) (h : st.m_representation = some rep) :
    ∃ st' : ModuleRuler, st.setVisibility v = some (true, st') ∧
      st'.m_showLine = st.m_showLine ∧
      (v = true → st'.visibility = true) := by
  obtain ⟨msrc, mrep, msl, mw⟩ := st
  cases mrep with
  | none => exact absurd h (by simp)
  | some rep0 =>
    obtain rfl : rep0 = rep := by simpa using h
    cases mw with
    | none =>
      cases v with
      | false => exact ⟨_, rfl, rfl, fun hv => by cases hv⟩
      | true => exact ⟨_, rfl, rfl, fun _ => rfl⟩
    | some w =>
      cases v with
      | false => exact ⟨_, rfl, rfl, fun hv => by cases hv⟩
      | true => exact ⟨_, rfl, rfl, fun _ => rfl⟩

/-- Witness for C3 on concrete inputs. -/
theorem setVisibility_preserves_showLine_witness :
    (sampleModule.m_representation = some ⟨8, 1⟩) ∧
    (∃ st' : ModuleRuler, sampleModule.setVisibility true = some (true, st') ∧
      st'.m_showLine = sampleModule.m_showLine ∧
      (true = true → st'.visibility = true)) :=
  ⟨by decide, setVisibility_preserves_showLine sampleModule ⟨8, 1⟩ true (by decide)⟩

/-- C5: finalize returns true, clears both owned references, and afterwards
isProxyPartOfModule on any previously-owned non-null proxy returns false. -/
theorem finalize_clears_and_disowns (st : ModuleRuler) (ctrl : List ℕ)
    (p : Option ℕ) (hp : p ≠ none)
    (hown : p = st.rulerPtr ∨ p = st.representationPtr) :
    (st.finalize ctrl).1 = true ∧
    (st.finalize ctrl).2.1.m_rulerSource = none ∧
    (st.finalize ctrl).2.1.m_representation = none ∧
    (st.finalize ctrl).2.1.isProxyPartOfModule p = false := by
  refine ⟨rfl, rfl, rfl, ?_⟩
  cases p with
  | none => exact absurd rfl hp
  | some i =>
    simp [ModuleRuler.finalize, ModuleRuler.isProxyPartOfModule,
      ModuleRuler.rulerPtr, ModuleRuler.representationPtr]

/-- Witness for C5 on concrete inputs. -/
theorem finalize_clears_and_disowns_witness :
    ((some 7 : Option ℕ) ≠ none ∧
      (some 7 = sampleModule.rulerPtr ∨ some 7 = sampleModule.representationPtr)) ∧
    ((sampleModule.finalize [7, 8]).1 = true ∧
    (sampleModule.finalize [7, 8]).2.1.m_rulerSource = none ∧
    (sampleModule.finalize [7, 8]).2.1.m_representation = none ∧
    (sampleModule.finalize [7, 8]).2.1.isProxyPartOfModule (some 7) = false) :=
  ⟨⟨by decide, by decide⟩,
    finalize_clears_and_disowns sampleModule [7, 8] (some 7) (by decide) (by decide)⟩

/-- C6: deserialize updates m_showLine exactly when the document carries a
Representation/ShowLine/@value chain, to that value; otherwise the existing
value is preserved. -/
theorem deserialize_showLine_backcompat (st : ModuleRuler) (ns : XmlNode) :
    (st.deserialize ns).2.m_showLine = ns.showLineValue.getD st.m_showLine := by
  unfold ModuleRuler.deserialize XmlNode.showLineValue
  cases hd : deserializeRulerProperties st.m_rulerSource ns.rulerChild with
  | none =>
    cases hrn : ns.representationChild with
    | none => simp
    | some rn =>
      cases hsl : rn.showLine with
      | none => simp [hsl]
      | some sl =>
        cases hv : sl.value with
        | none => simp [hsl, hv]
        | some v => simp [hsl, hv]
  | some r =>
    cases hrn : ns.representationChild with
    | none =>
      cases hd2 : deserializeRepresentationProperties st.m_representation none with
      | none => simp [hd2]
      | some p => simp [hd2]
    | some rn =>
      cases hd2 : deserializeRepresentationProperties st.m_representation
          (some rn) with
      | none =>
        cases hsl : rn.showLine with
        | none => simp [hd2, hsl]
        | some sl =>
          cases hv : sl.value with
          | none => simp [hd2, hsl, hv]
          | some v => simp [hd2, hsl, hv]
      | some p =>
        cases hsl : rn.showLine with
        | none => simp [hd2, hsl]
        | some sl =>
          cases hv : sl.value with
          | none => simp [hd2, hsl, hv]
          | some v => simp [hd2, hsl, hv]

/-- C7: serialize succeeds exactly when both underlying property
serializations (Point1/Point2 on the ruler, Visibility on the
representation) succeed; either failure makes it report failure. -/
theorem serialize_reports_property_failure (st : ModuleRuler) :
    st.serialize.isSome ↔
      (serializeRulerProperties st.m_rulerSource ⟨none, none⟩).isSome ∧
      (serializeRepresentationProperties st.m_representation
        ⟨none, some ⟨some st.m_showLine⟩⟩).isSome := by
  cases hr : st.m_rulerSource <;> cases hp : st.m_representation <;>
    simp [ModuleRuler.serialize, serializeRulerProperties,
      serializeRepresentationProperties, hr, hp]

/-- C8: the owned proxies map to "Ruler" and "Representation" and back to
themselves; any other proxy maps to the empty string and any other string to
a null proxy. -/
theorem proxy_string_mapping (st : ModuleRuler) (r : RulerProxy) (q : RepProxy)
    (hr : st.m_rulerSource = some r) (hq : st.m_representation = some q)
    (hne : r.id ≠ q.id) (p : Option ℕ) (hp1 : p ≠ st.rulerPtr)
    (hp2 : p ≠ st.representationPtr) (s : String) (hs1 : s ≠ "Ruler")
    (hs2 : s ≠ "Representation") :
    st.getStringForProxy (some r.id) = "Ruler" ∧
    st.getStringForProxy (some q.id) = "Representation" ∧
    st.getProxyForString (st.getStringForProxy (some r.id)) = some r.id ∧
    st.getProxyForString (st.getStringForProxy (some q.id)) = some q.id ∧
    st.getStringForProxy p = "" ∧
    st.getProxyForString s = none := by
  have hrp : st.rulerPtr = some r.id := by
    simp [ModuleRuler.rulerPtr, hr]
  have hqp : st.representationPtr = some q.id := by
    simp [ModuleRuler.representationPtr, hq]
  refine ⟨?_, ?_, ?_, ?_, ?_, ?_⟩
  · simp [ModuleRuler.getStringForProxy, hrp]
  · simp [ModuleRuler.getStringForProxy, hrp, hqp, hne, Ne.symm hne]
  · simp [ModuleRuler.getStringForProxy, ModuleRuler.getProxyForString, hrp]
  · simp [ModuleRuler.getStringForProxy, ModuleRuler.getProxyForString, hrp,
      hqp, hne, Ne.symm hne]
  · simp [ModuleRuler.getStringForProxy, hp1, hp2]
  · simp [ModuleRuler.getProxyForString, hs1, hs2]

/-- Witness for C8 on concrete inputs. -/
theorem proxy_string_mapping_witness :
    (sampleModule.m_rulerSource = some sampleRuler ∧
      sampleModule.m_representation = some ⟨8, 1⟩ ∧
      sampleRuler.id ≠ (8 : ℕ) ∧
      (some 99 : Option ℕ) ≠ sampleModule.rulerPtr ∧
      (some 99 : Option ℕ) ≠ sampleModule.representationPtr ∧
      "Widget" ≠ "Ruler" ∧ "Widget" ≠ "Representation") ∧
    (sampleModule.getStringForProxy (some sampleRuler.id) = "Ruler" ∧
    sampleModule.getStringForProxy (some (8 : ℕ)) = "Representation" ∧
    sampleModule.getProxyForString
      (sampleModule.getStringForProxy (some sampleRuler.id)) = some sampleRuler.id ∧
    sampleModule.getProxyForString
      (sampleModule.getStringForProxy (some (8 : ℕ))) = some (8 : ℕ) ∧
    sampleModule.getStringForProxy (some 99) = "" ∧
    sampleModule.getProxyForString "Widget" = none) :=
  ⟨⟨rfl, rfl, by decide, by decide, by decide, by decide, by decide⟩,
    proxy_string_mapping sampleModule sampleRuler ⟨8, 1⟩ rfl rfl (by decide)
      (some 99) (by decide) (by decide) "Widget" (by decide) (by decide)⟩

/-- C2: serialize into a fresh document node then deserialize from that node
into a fresh module (one with live proxies) succeeds and restores Point1,
Point2, Visibility and ShowLine to exactly the serialized values. -/
theorem serialize_deserialize_roundTrip (st st2 : ModuleRuler) (node : XmlNode)
    (h : st.serialize = some node)
    (h2 : st2.m_rulerSource.isSome = true)
    (h3 : st2.m_representation.isSome = true) :
    ∃ r p r2 p2, st.m_rulerSource = some r ∧ st.m_representation = some p ∧
      (st2.deserialize node).1 = true ∧
      (st2.deserialize node).2.m_rulerSource = some r2 ∧
      (st2.deserialize node).2.m_representation = some p2 ∧
      r2.point1 = r.point1 ∧ r2.point2 = r.point2 ∧
      p2.visibility = p.visibility ∧
      (st2.deserialize node).2.m_showLine = st.m_showLine := by
  cases hr : st.m_rulerSource with
  | none => simp [ModuleRuler.serialize, serializeRulerProperties, hr] at h
  | some r =>
    cases hp : st.m_representation with
    | none =>
      simp [ModuleRuler.serialize, serializeRulerProperties,
        serializeRepresentationProperties, hr, hp] at h
    | some p =>
      have hnode : node = ⟨some ⟨some r.point1, some r.point2⟩,
          some ⟨some p.visibility, some ⟨some st.m_showLine⟩⟩⟩ := by
        simp [ModuleRuler.serialize, serializeRulerProperties,
          serializeRepresentationProperties, hr, hp] at h
        exact h.symm
      subst hnode
      cases hr2 : st2.m_rulerSource with
      | none => rw [hr2] at h2; simp at h2
      | some r2 =>
        cases hp2 : st2.m_representation with
        | none => rw [hp2] at h3; simp at h3
        | some p2 =>
          refine ⟨r, p, { r2 with point1 := r.point1, point2 := r.point2 },
            { p2 with visibility := p.visibility }, rfl, rfl, ?_, ?_, ?_,
            rfl, rfl, rfl, ?_⟩ <;>
          simp [ModuleRuler.deserialize, deserializeRulerProperties,
            deserializeRepresentationProperties, hr2, hp2]

/-- Witness for C2 on concrete inputs. -/
theorem serialize_deserialize_roundTrip_witness :
    (sampleModule.serialize = some sampleSerialized ∧
      sampleModule2.m_rulerSource.isSome = true ∧
      sampleModule2.m_representation.isSome = true) ∧
    (∃ r p r2 p2,
      sampleModule.m_rulerSource = some r ∧
      sampleModule.m_representation = some p ∧
      (sampleModule2.deserialize sampleSerialized).1 = true ∧
      (sampleModule2.deserialize sampleSerialized).2.m_rulerSource = some r2 ∧
      (sampleModule2.deserialize sampleSerialized).2.m_representation = some p2 ∧
      r2.point1 = r.point1 ∧ r2.point2 = r.point2 ∧
      p2.visibility = p.visibility ∧
      (sampleModule2.deserialize sampleSerialized).2.m_showLine =
        sampleModule.m_showLine) :=
  ⟨⟨rfl, rfl, rfl⟩,
    serialize_deserialize_roundTrip sampleModule sampleModule2 sampleSerialized
      rfl rfl rfl⟩

/-- C9: deserialize is not atomic on failure: when either restore fails (the
ruler restore, or the representation restore) while the document carries a
Representation/ShowLine/@value chain, the call returns false yet m_showLine
is still updated to the stored value; and when the ruler restore is the one
that failed, the representation restore is skipped by short-circuit, leaving
the representation reference unchanged. -/
theorem deserialize_not_atomic (st : ModuleRuler) (ns : XmlNode)
    (rn : RepresentationNode) (sl : ShowLineNode) (v : Bool)
    (hfail : deserializeRulerProperties st.m_rulerSource ns.rulerChild = none ∨
      deserializeRepresentationProperties st.m_representation
        ns.representationChild = none)
    (hrn : ns.representationChild = some rn)
    (hsl : rn.showLine = some sl) (hv : sl.value = some v) :
    (st.deserialize ns).1 = false ∧
    (st.deserialize ns).2.m_showLine = v ∧
    (deserializeRulerProperties st.m_rulerSource ns.rulerChild = none →
      (st.deserialize ns).2.m_representation = st.m_representation) := by
  cases hfail with
  | inl hf => simp [ModuleRuler.deserialize, hf, hrn, hsl, hv]
  | inr hf =>
    cases hd : deserializeRulerProperties st.m_rulerSource ns.rulerChild with
    | none => simp [ModuleRuler.deserialize, hd, hrn, hsl, hv]
    | some r =>
      rw [hrn] at hf
      simp [ModuleRuler.deserialize, hd, hf, hrn, hsl, hv]

/-- Witness for C9 on concrete inputs (the ruler-restore failure trigger). -/
theorem deserialize_not_atomic_witness :
    ((deserializeRulerProperties sampleModule2.m_rulerSource
        sampleBadDoc.rulerChild = none ∨
      deserializeRepresentationProperties sampleModule2.m_representation
        sampleBadDoc.representationChild = none) ∧
      sampleBadDoc.representationChild = some ⟨some 5, some ⟨some true⟩⟩ ∧
      (⟨some 5, some ⟨some true⟩⟩ : RepresentationNode).showLine =
        some ⟨some true⟩ ∧
      (⟨some true⟩ : ShowLineNode).value = some true) ∧
    ((sampleModule2.deserialize sampleBadDoc).1 = false ∧
      (sampleModule2.deserialize sampleBadDoc).2.m_showLine = true ∧
      (deserializeRulerProperties sampleModule2.m_rulerSource
          sampleBadDoc.rulerChild = none →
        (sampleModule2.deserialize sampleBadDoc).2.m_representation =
          sampleModule2.m_representation)) :=
  ⟨⟨Or.inl rfl, rfl, rfl, rfl⟩,
    deserialize_not_atomic sampleModule2 sampleBadDoc ⟨some 5, some ⟨some true⟩⟩
      ⟨some true⟩ true (Or.inl rfl) rfl rfl rfl⟩

/-- C10: finalize is idempotent: run on an already-finalized module it makes
no further change to the module or controller state and still returns
true. -/
theorem finalize_idempotent (st : ModuleRuler) (ctrl : List ℕ) :
    ModuleRuler.finalize (st.finalize ctrl).2.1 (st.finalize ctrl).2.2 =
      (true, (st.finalize ctrl).2.1, (st.finalize ctrl).2.2) := by
  simp [ModuleRuler.finalize, ModuleRuler.rulerPtr,
    ModuleRuler.representationPtr, unRegisterProxy]

/-- Along one axis the structured coordinate computed by FindPoint (round
half up of the scaled offset) gives the grid coordinate nearest to the
query. -/
theorem structuredCoord_nearest (o s x : ℚ) (hs : 0 < s) (k : ℤ) :
    |x - (o + (structuredCoord o s x : ℚ) * s)| ≤ |x - (o + (k : ℚ) * s)| := by
  have hs0 : s ≠ 0 := ne_of_gt hs
  have key : ∀ m : ℤ, x - (o + (m : ℚ) * s) = s * ((x - o) / s - (m : ℚ)) := by
    intro m
    field_simp
    ring
  rw [key, key, abs_mul, abs_mul]
  refine mul_le_mul_of_nonneg_left ?_ (abs_nonneg s)
  have hsc : structuredCoord o s x = round ((x - o) / s) := by
    rw [round_eq]
    rfl
  rw [hsc]
  exact round_le ((x - o) / s) k

/-- Squared form of `structuredCoord_nearest`. -/
theorem structuredCoord_nearest_sq (o s x : ℚ) (hs : 0 < s) (k : ℤ) :
    (x - (o + (structuredCoord o s x : ℚ) * s)) ^ 2 ≤
      (x - (o + (k : ℚ) * s)) ^ 2 := by
  have h := structuredCoord_nearest o s x hs k
  calc (x - (o + (structuredCoord o s x : ℚ) * s)) ^ 2
      = |x - (o + (structuredCoord o s x : ℚ) * s)| ^ 2 := (sq_abs _).symm
    _ ≤ |x - (o + (k : ℚ) * s)| ^ 2 := pow_le_pow_left₀ (abs_nonneg _) h 2
    _ = (x - (o + (k : ℚ) * s)) ^ 2 := sq_abs _

/-- Bounds on the flat structured index a + b*dX + c*dX*dY. -/
theorem flat_index_bound (a b c dX dY dZ : ℤ) (ha0 : 0 ≤ a) (ha1 : a < dX)
    (hb0 : 0 ≤ b) (hb1 : b < dY) (hc0 : 0 ≤ c) (hc1 : c < dZ) :
    0 ≤ a + b * dX + c * dX * dY ∧ a + b * dX + c * dX * dY < dX * dY * dZ := by
  have hdx : 0 < dX := lt_of_le_of_lt ha0 ha1
  have hdy : 0 < dY := lt_of_le_of_lt hb0 hb1
  constructor
  · have h1 : 0 ≤ b * dX := mul_nonneg hb0 hdx.le
    have h2 : 0 ≤ c * dX * dY := mul_nonneg (mul_nonneg hc0 hdx.le) hdy.le
    linarith
  · have h1 : b * dX ≤ (dY - 1) * dX :=
      mul_le_mul_of_nonneg_right (by omega) hdx.le
    have h2 : c * (dX * dY) ≤ (dZ - 1) * (dX * dY) :=
      mul_le_mul_of_nonneg_right (by omega) (mul_nonneg hdx.le hdy.le)
    nlinarith [h1, h2]

/-- The flat point id of an in-extent sample is a valid index into an array
of dimX*dimY*dimZ point scalars. -/
theorem flatIndex_nonneg_lt (img : ImageData) (i j k : ℤ)
    (h : img.inExtent i j k) :
    0 ≤ img.flatIndex i j k ∧
      img.flatIndex i j k < img.dimX * img.dimY * img.dimZ := by
  obtain ⟨h1, h2, h3, h4, h5, h6⟩ := h
  unfold ImageData.flatIndex ImageData.dimX ImageData.dimY ImageData.dimZ
  exact flat_index_bound _ _ _ _ _ _ (by omega) (by omega) (by omega) (by omega)
    (by omega) (by omega)

/-- GetTuple1 succeeds on any in-range index. -/
theorem getTuple1_in_range (arr : List ℚ) (i : ℤ) (h0 : 0 ≤ i)
    (h1 : i < (arr.length : ℤ)) :
    ∃ v, getTuple1 arr i = some v := by
  have h2 : i.toNat < arr.length := by omega
  refine ⟨arr.get ⟨i.toNat, h2⟩, ?_⟩
  unfold getTuple1
  rw [dif_pos ⟨h0, h2⟩]

/-- A successful FindPoint returns the flat id of the in-extent sample at the
rounded structured coordinates. -/
theorem findPoint_spec (img : ImageData) (p : Point3) (n : ℤ)
    (h : img.findPoint p = some n) :
    img.inExtent (structuredCoord img.originX img.spacingX p.x)
      (structuredCoord img.originY img.spacingY p.y)
      (structuredCoord img.originZ img.spacingZ p.z) ∧
    n = img.flatIndex (structuredCoord img.originX img.spacingX p.x)
      (structuredCoord img.originY img.spacingY p.y)
      (structuredCoord img.originZ img.spacingZ p.z) := by
  simp only [ImageData.findPoint] at h
  split at h
  case isTrue hc =>
    refine ⟨hc, ?_⟩
    injection h with h
    rw [← h]
    rfl
  case isFalse hc => cases h

/-- A successful FindPoint locates a sample whose stored scalar is the value
at a nearest grid sample to the query point. -/
theorem findPoint_gives_nearest_sample (img : ImageData) (p : Point3) (n : ℤ)
    (hsx : 0 < img.spacingX) (hsy : 0 < img.spacingY) (hsz : 0 < img.spacingZ)
    (hlen : (img.scalars.length : ℤ) = img.dimX * img.dimY * img.dimZ)
    (h : img.findPoint p = some n) :
    ∃ v, getTuple1 img.scalars n = some v ∧ img.isNearestSampleValue p v := by
  obtain ⟨hin, hn⟩ := findPoint_spec img p n h
  obtain ⟨hlo, hhi⟩ := flatIndex_nonneg_lt img _ _ _ hin
  obtain ⟨v, hv⟩ := getTuple1_in_range img.scalars _ hlo (by rw [hlen]; exact hhi)
  refine ⟨v, by rw [hn]; exact hv, _, _, _, hin, ?_, hv⟩
  intro a b c habc
  unfold dist2 ImageData.gridPoint
  exact add_le_add
    (add_le_add (structuredCoord_nearest_sq img.originX img.spacingX p.x hsx a)
      (structuredCoord_nearest_sq img.originY img.spacingY p.y hsy b))
    (structuredCoord_nearest_sq img.originZ img.spacingZ p.z hsz c)

/-- C4: endPointsUpdated emits exactly the scalar values stored at the grid
samples nearest to the two ruler endpoints; when an endpoint lies outside
the grid the nearest-point lookup fails and no well-defined pair is
emitted. -/
theorem endPointsUpdated_emits_nearest (st : ModuleRuler) (img : ImageData)
    (r : RulerProxy) (hr : st.m_rulerSource = some r)
    (hsx : 0 < img.spacingX) (hsy : 0 < img.spacingY) (hsz : 0 < img.spacingZ)
    (hlen : (img.scalars.length : ℤ) = img.dimX * img.dimY * img.dimZ) :
    (∃ v1 v2, st.endPointsUpdated img = some (v1, v2) ∧
      img.isNearestSampleValue r.point1 v1 ∧
      img.isNearestSampleValue r.point2 v2) ∨
    (st.endPointsUpdated img = none ∧
      (img.findPoint r.point1 = none ∨ img.findPoint r.point2 = none)) := by
  cases h1 : img.findPoint r.point1 with
  | none =>
    right
    exact ⟨by simp [ModuleRuler.endPointsUpdated, hr, h1], Or.inl rfl⟩
  | some n1 =>
    cases h2 : img.findPoint r.point2 with
    | none =>
      right
      exact ⟨by simp [ModuleRuler.endPointsUpdated, hr, h1, h2], Or.inr rfl⟩
    | some n2 =>
      left
      obtain ⟨v1, hv1, hn1⟩ :=
        findPoint_gives_nearest_sample img r.point1 n1 hsx hsy hsz hlen h1
      obtain ⟨v2, hv2, hn2⟩ :=
        findPoint_gives_nearest_sample img r.point2 n2 hsx hsy hsz hlen h2
      exact ⟨v1, v2,
        by simp [ModuleRuler.endPointsUpdated, hr, h1, h2, hv1, hv2], hn1, hn2⟩

/-- Witness for C4 on concrete inputs. -/
theorem endPointsUpdated_emits_nearest_witness :
    (sampleModule.m_rulerSource = some sampleRuler ∧
      (0 : ℚ) < sampleImage.spacingX ∧ (0 : ℚ) < sampleImage.spacingY ∧
      (0 : ℚ) < sampleImage.spacingZ ∧
      (sampleImage.scalars.length : ℤ) =
        sampleImage.dimX * sampleImage.dimY * sampleImage.dimZ) ∧
    ((∃ v1 v2, sampleModule.endPointsUpdated sampleImage = some (v1, v2) ∧
      sampleImage.isNearestSampleValue sampleRuler.point1 v1 ∧
      sampleImage.isNearestSampleValue sampleRuler.point2 v2) ∨
    (sampleModule.endPointsUpdated sampleImage = none ∧
      (sampleImage.findPoint sampleRuler.point1 = none ∨
        sampleImage.findPoint sampleRuler.point2 = none))) :=
  ⟨⟨rfl, zero_lt_one, zero_lt_one, zero_lt_one, by decide⟩,
    endPointsUpdated_emits_nearest sampleModule sampleImage sampleRuler rfl
      zero_lt_one zero_lt_one zero_lt_one (by decide)⟩

end ModuleRulerSpec
